import Mathlib

/-!
# Verification of the mobility-dashboard traffic-flow animation code

Shallow embedding of the TypeScript sources of `main-salman/mobility-dashboard`.
JavaScript numbers are modelled as rationals (`ℚ`); `Math.random`, `Math.cos`,
`Math.sin` and `Math.atan2` are modelled as an explicit oracle (`JsMath`)
together with a validity predicate (`JsMath.Valid`) stating mathematical facts
that the real implementations satisfy.  Timestamps (`Date.now()` milliseconds)
are modelled as naturals; `Date#getHours` / `Date#getDay` are modelled for the
UTC timezone.
-/

/-- The JavaScript constant `Math.PI`: the IEEE-754 double closest to π,
namely 884279719003555 / 2^48. -/
def jsPI : ℚ := 884279719003555 / 281474976710656

/-- JavaScript's `%` operator on numbers (remainder with the sign of the
dividend): `a % n = a - n * trunc (a / n)`.  For a nonnegative dividend and a
positive divisor this is `a - n * ⌊a / n⌋`. -/
def jsMod (a n : ℚ) : ℚ :=
  a - n * (if 0 ≤ a / n then (⌊a / n⌋ : ℚ) else (⌈a / n⌉ : ℚ))

/-- The four movement categories of `src/types/index.ts` (`MovementType`). -/
inductive MovementType where
  | pedestrian
  | vehicle
  | transit
  | bicycle
deriving DecidableEq, Repr

/-- `google.maps.LatLngLiteral`. -/
structure Coord where
  lat : ℚ
  lng : ℚ
deriving DecidableEq, Repr

/-- `TrafficFlowPoint` of `src/types/index.ts`.  The fields `intensity` and
`movementType` are optional (`intensity?: number`, `movementType?: MovementType`). -/
structure TrafficFlowPoint where
  id : String
  position : Coord
  nextPosition : Coord
  bearing : ℚ
  progress : ℚ
  routeIndex : ℤ
  speed : ℚ
  intensity : Option ℚ
  movementType : Option MovementType
deriving DecidableEq, Repr

/-- Oracle for the JavaScript math built-ins used by the code: a stream of
`Math.random()` results (indexed by the order of the calls) and the
trigonometric functions. -/
structure JsMath where
  rand : ℕ → ℚ
  cos : ℚ → ℚ
  sin : ℚ → ℚ
  atan2 : ℚ → ℚ → ℚ

/-- True mathematical facts about the real JavaScript implementations:
`Math.random()` lies in `[0,1)`; sine and cosine lie in `[-1,1]`;
`Math.atan2 y x` lies in `[-Math.PI, Math.PI]` and is negative for a
(strictly) negative first argument; sine is negative on `(-π, 0)`. -/
def JsMath.Valid (m : JsMath) : Prop :=
  (∀ n, 0 ≤ m.rand n ∧ m.rand n < 1) ∧
  (∀ x, -1 ≤ m.cos x ∧ m.cos x ≤ 1) ∧
  (∀ x, -1 ≤ m.sin x ∧ m.sin x ≤ 1) ∧
  (∀ y x, -jsPI ≤ m.atan2 y x ∧ m.atan2 y x ≤ jsPI) ∧
  (∀ y x, y < 0 → m.atan2 y x < 0) ∧
  (∀ x, -jsPI < x → x < 0 → m.sin x < 0)

/-! ## `src/unnamed/part_004`: animation utilities -/

/-- `interpolatePosition` (part_004): linear interpolation between two
positions by `progress`. -/
def interpolatePosition (start stop : Coord) (progress : ℚ) : Coord :=
  { lat := start.lat + (stop.lat - start.lat) * progress
    lng := start.lng + (stop.lng - start.lng) * progress }

/-- `getSpeedFactorForMovementType` (part_004).  The `default` arm of the
`switch` covers an absent (`undefined`) movement type. -/
def getSpeedFactorForMovementType : Option MovementType → ℚ
  | some .pedestrian => 3/10
  | some .vehicle => 1
  | some .transit => 7/10
  | some .bicycle => 1/2
  | none => 1

/-- `THROTTLE_MS` (part_004). -/
def THROTTLE_MS : ℕ := 50

/-- The per-point body of `updateFlowPoints` (part_004): advance `progress`
by `(speed / 5000) * speedFactor * typeSpeedFactor * elapsedSec * 60` where
`elapsedSec = THROTTLE_MS / 1000 = 1/20` is a constant, and reset to `0` on
reaching `1`. -/
def tickPoint (speedFactor : ℚ) (p : TrafficFlowPoint) : TrafficFlowPoint :=
  let typeSpeedFactor := getSpeedFactorForMovementType p.movementType
  let elapsedSec : ℚ := (THROTTLE_MS : ℚ) / 1000
  let progress := p.progress + (p.speed / 5000) * speedFactor * typeSpeedFactor * elapsedSec * 60
  { p with progress := if 1 ≤ progress then 0 else progress }

/-- `updateFlowPoints` (part_004) with the module-level `lastUpdateTime`
state made explicit.  `now` is `Date.now()` in milliseconds.  Calls arriving
within `THROTTLE_MS` of the last accepted update return the points unchanged
and do not modify the state. -/
def updateFlowPoints (lastUpdateTime now : ℕ) (flowPoints : List TrafficFlowPoint)
    (speedFactor : ℚ) : ℕ × List TrafficFlowPoint :=
  if now - lastUpdateTime < THROTTLE_MS then (lastUpdateTime, flowPoints)
  else (now, flowPoints.map (tickPoint speedFactor))

/-- A sequence of animation ticks: fold `updateFlowPoints` over a list of
`(now, speedFactor)` tick requests. -/
def runTicks (lastUpdateTime : ℕ) (flowPoints : List TrafficFlowPoint) :
    List (ℕ × ℚ) → ℕ × List TrafficFlowPoint
  | [] => (lastUpdateTime, flowPoints)
  | (now, sf) :: rest =>
      let r := updateFlowPoints lastUpdateTime now flowPoints sf
      runTicks r.1 r.2 rest

/-! ## Proof infrastructure for claim C1 -/

/-- The progress invariant together with nonnegative speed. -/
def GoodPoint (p : TrafficFlowPoint) : Prop :=
  0 ≤ p.progress ∧ p.progress < 1 ∧ 0 ≤ p.speed

instance : DecidablePred GoodPoint := fun p => by
  unfold GoodPoint; infer_instance

lemma typeSpeedFactor_nonneg (mt : Option MovementType) :
    0 ≤ getSpeedFactorForMovementType mt := by
  rcases mt with _ | mt
  · norm_num [getSpeedFactorForMovementType]
  · cases mt <;> norm_num [getSpeedFactorForMovementType]

lemma tickPoint_good (sf : ℚ) (hsf : 0 ≤ sf) (p : TrafficFlowPoint)
    (hp : GoodPoint p) : GoodPoint (tickPoint sf p) := by
  obtain ⟨h0, h1, hs⟩ := hp
  have hinc : 0 ≤ (p.speed / 5000) * sf * getSpeedFactorForMovementType p.movementType
      * ((THROTTLE_MS : ℚ) / 1000) * 60 := by
    have := typeSpeedFactor_nonneg p.movementType
    positivity
  unfold tickPoint GoodPoint
  simp only []
  split
  · exact ⟨le_refl 0, by norm_num, hs⟩
  · refine ⟨by linarith, by linarith [not_le.mp (by assumption)], hs⟩

lemma updateFlowPoints_good (last now : ℕ) (pts : List TrafficFlowPoint) (sf : ℚ)
    (hsf : 0 ≤ sf) (h : ∀ p ∈ pts, GoodPoint p) :
    ∀ p ∈ (updateFlowPoints last now pts sf).2, GoodPoint p := by
  unfold updateFlowPoints
  split
  · simpa using h
  · intro p hp
    simp only [List.mem_map] at hp
    obtain ⟨q, hq, rfl⟩ := hp
    exact tickPoint_good sf hsf q (h q hq)

lemma runTicks_good (ticks : List (ℕ × ℚ)) (last : ℕ)
    (pts : List TrafficFlowPoint)
    (hticks : ∀ t ∈ ticks, 0 ≤ t.2) (h : ∀ p ∈ pts, GoodPoint p) :
    ∀ p ∈ (runTicks last pts ticks).2, GoodPoint p := by
  induction ticks generalizing last pts with
  | nil => simpa [runTicks] using h
  | cons t rest ih =>
      intro p hp
      refine ih _ _ (fun u hu => hticks u (List.mem_cons_of_mem _ hu)) ?_ p hp
      exact updateFlowPoints_good last t.1 pts t.2 (hticks t (List.mem_cons_self _ _)) h

/-- **C1.** For every flow point with `progress ∈ [0,1)` and nonnegative
`speed`, and every sequence of animation ticks with nonnegative global speed
factors, the progress stays in `[0,1)`; moreover a single tick advances
progress by the speed-scaled increment and wraps it to exactly `0` whenever
the advance reaches `1`. -/
theorem updateFlowPoints_progress_invariant
    (ticks : List (ℕ × ℚ)) (last : ℕ) (pts : List TrafficFlowPoint)
    (hticks : ∀ t ∈ ticks, 0 ≤ t.2) (h : ∀ p ∈ pts, GoodPoint p) :
    (∀ p ∈ (runTicks last pts ticks).2, 0 ≤ p.progress ∧ p.progress < 1) ∧
    (∀ sf p, let inc := (p.speed / 5000) * sf * getSpeedFactorForMovementType p.movementType
        * ((THROTTLE_MS : ℚ) / 1000) * 60
      (tickPoint sf p).progress = if 1 ≤ p.progress + inc then 0 else p.progress + inc) := by
  constructor
  · intro p hp
    have := runTicks_good ticks last pts hticks h p hp
    exact ⟨this.1, this.2.1⟩
  · intro sf p
    rfl

/-- The concrete point for the C1 witness: progress 199/200, speed 1000. -/
def pW1 : TrafficFlowPoint :=
  { id := "w", position := ⟨0, 0⟩, nextPosition := ⟨1, 1⟩, bearing := 0,
    progress := 199/200, routeIndex := 0, speed := 1000, intensity := none,
    movementType := some .vehicle }

/-- Witness for C1 at a concrete input: `pW1` ticked three times (the first
tick wraps past 1 to exactly 0, the middle request is throttled) ends at
progress 3/5, inside `[0,1)`. -/
theorem updateFlowPoints_progress_invariant_witness :
    0 ≤ ((runTicks 0 [pW1] [(60, 1), (80, 1), (200, 1)]).2.getD 0 pW1).progress ∧
    ((runTicks 0 [pW1] [(60, 1), (80, 1), (200, 1)]).2.getD 0 pW1).progress < 1 := by
  have hout : (runTicks 0 [pW1] [(60, 1), (80, 1), (200, 1)]).2 =
      [{ pW1 with progress := 3/5 }] := by
    norm_num [runTicks, updateFlowPoints, tickPoint, THROTTLE_MS,
      getSpeedFactorForMovementType, pW1]
  have hmem : (runTicks 0 [pW1] [(60, 1), (80, 1), (200, 1)]).2.getD 0 pW1 ∈
      (runTicks 0 [pW1] [(60, 1), (80, 1), (200, 1)]).2 := by
    rw [hout]
    simp [List.getD]
  exact (updateFlowPoints_progress_invariant [(60, 1), (80, 1), (200, 1)] 0 [pW1]
    (by intro t ht; fin_cases ht <;> norm_num)
    (by intro p hp; simp only [List.mem_singleton] at hp; subst hp
        refine ⟨by norm_num [pW1], by norm_num [pW1], by norm_num [pW1]⟩)).1 _ hmem

/-- **C8.** The code's own comments promise elapsed-time scaling
("Calculate elapsed time since last update in seconds", "Scale by elapsed
time for framerate-independent animation"), but `elapsedSec` is the constant
`THROTTLE_MS / 1000`: a tick after a 1000 ms gap advances progress by exactly
the same amount as a tick after a 100 ms gap (here both give `3/5` for a
point with speed 1000), so the advance is not proportional to wall-clock
elapsed time.  Requests inside the 50 ms throttle window are dropped
unchanged. -/
theorem updateFlowPoints_fixed_timestep :
    ((updateFlowPoints 0 100
        [{ id := "p", position := ⟨0, 0⟩, nextPosition := ⟨1, 1⟩, bearing := 0,
           progress := 0, routeIndex := 0, speed := 1000, intensity := none,
           movementType := some .vehicle }] 1).2.map (fun p => p.progress) = [3/5]) ∧
    ((updateFlowPoints 0 1000
        [{ id := "p", position := ⟨0, 0⟩, nextPosition := ⟨1, 1⟩, bearing := 0,
           progress := 0, routeIndex := 0, speed := 1000, intensity := none,
           movementType := some .vehicle }] 1).2.map (fun p => p.progress) = [3/5]) ∧
    (updateFlowPoints 0 49
        [{ id := "p", position := ⟨0, 0⟩, nextPosition := ⟨1, 1⟩, bearing := 0,
           progress := 0, routeIndex := 0, speed := 1000, intensity := none,
           movementType := some .vehicle }] 1 =
      (0, [{ id := "p", position := ⟨0, 0⟩, nextPosition := ⟨1, 1⟩, bearing := 0,
             progress := 0, routeIndex := 0, speed := 1000, intensity := none,
             movementType := some .vehicle }])) := by
  refine ⟨?_, ?_, ?_⟩ <;>
    norm_num [updateFlowPoints, tickPoint, THROTTLE_MS, getSpeedFactorForMovementType]

/-! ## `samplePointsForZoom` (part_004) -/

/-- The `maxPoints` object of `samplePointsForZoom`, as enumerated by
`Object.entries`.  All its keys are array-index strings, and ECMA-262's
`OrdinaryOwnPropertyKeys` enumerates such keys in ascending numeric order,
so the entry for threshold `0` comes first. -/
def maxPointsEntries : List (ℕ × ℕ) :=
  [(0, 100), (8, 200), (10, 400), (12, 600), (14, 800),
   (16, 1000), (18, 2000), (20, 5000)]

/-- The `for (const [zoomThreshold, pointLimit] of Object.entries(maxPoints))`
loop: take the first entry whose threshold is at most the zoom (`break`),
keeping the initial `maxPoints[0] = 100` otherwise. -/
def findLimit (zoom : ℚ) : List (ℕ × ℕ) → ℕ
  | [] => 100
  | (t, l) :: rest => if (t : ℚ) ≤ zoom then l else findLimit zoom rest

/-- The point limit actually computed by `samplePointsForZoom` for a zoom
level. -/
def effectiveLimit (zoom : ℚ) : ℕ := findLimit zoom maxPointsEntries

/-- The `typeGroups` entry for one movement type: the input points of that
type, in order.  A point with no `movementType` lands in no group
(`typeGroups[undefined]` is `undefined`, so the push is skipped). -/
def filterByType (t : MovementType) (points : List TrafficFlowPoint) :
    List TrafficFlowPoint :=
  points.filter (fun p => p.movementType = some t)

/-- The inner `typePoints.forEach`: keep each point whose next
`Math.random()` draw (the `n`-th call of the sampling pass) is at most the
type's sampling rate. -/
def keepSampled (rand : ℕ → ℚ) (rate : ℚ) : ℕ → List TrafficFlowPoint → List TrafficFlowPoint
  | _, [] => []
  | n, p :: ps =>
      if rand n ≤ rate then p :: keepSampled rand rate (n + 1) ps
      else keepSampled rand rate (n + 1) ps

/-- The type's share of the limit: `Math.max(10, Math.floor(limit *
(typePoints.length / points.length)))`. -/
def typeLimitOf (limit total count : ℕ) : ℤ :=
  max 10 ⌊(limit : ℚ) * ((count : ℚ) / (total : ℚ))⌋

/-- The `Object.entries(typeGroups).forEach` pass: sample each group with its
own rate, threading the `Math.random()` call counter across groups. -/
def sampleGroups (rand : ℕ → ℚ) (limit total : ℕ) :
    ℕ → List (List TrafficFlowPoint) → List TrafficFlowPoint
  | _, [] => []
  | n, g :: gs =>
      let rate := (typeLimitOf limit total g.length : ℚ) / (g.length : ℚ)
      keepSampled rand rate n g ++ sampleGroups rand limit total (n + g.length) gs

/-- `samplePointsForZoom` (part_004).  `rand` is the `Math.random` stream of
the sampling pass.  The groups are enumerated in the insertion order of
`typeGroups`: pedestrian, vehicle, transit, bicycle. -/
def samplePointsForZoom (rand : ℕ → ℚ) (points : List TrafficFlowPoint)
    (zoom : ℚ) : List TrafficFlowPoint :=
  if points.length ≤ effectiveLimit zoom then points
  else
    sampleGroups rand (effectiveLimit zoom) points.length 0
      [filterByType .pedestrian points, filterByType .vehicle points,
       filterByType .transit points, filterByType .bicycle points]

/-- **C4.** The zoom→limit lookup is constant: `Object.entries` yields the
threshold-`0` entry first, every zoom satisfies `zoom ≥ 0` there (and a
negative zoom matches no entry), so the loop always breaks with `limit = 100`.
In particular `limit(20) = 100`, not the `5000` required by the claimed step
function. -/
theorem effectiveLimit_constant_100 :
    effectiveLimit 20 = 100 ∧ ∀ zoom : ℚ, effectiveLimit zoom = 100 := by
  constructor
  · norm_num [effectiveLimit, maxPointsEntries, findLimit]
  · intro zoom
    by_cases hz : (0 : ℚ) ≤ zoom
    · simp [effectiveLimit, maxPointsEntries, findLimit, hz]
    · have h8 : ¬((8 : ℚ) ≤ zoom) := by push_neg at hz ⊢; linarith
      have h10 : ¬((10 : ℚ) ≤ zoom) := by push_neg at hz ⊢; linarith
      have h12 : ¬((12 : ℚ) ≤ zoom) := by push_neg at hz ⊢; linarith
      have h14 : ¬((14 : ℚ) ≤ zoom) := by push_neg at hz ⊢; linarith
      have h16 : ¬((16 : ℚ) ≤ zoom) := by push_neg at hz ⊢; linarith
      have h18 : ¬((18 : ℚ) ≤ zoom) := by push_neg at hz ⊢; linarith
      have h20 : ¬((20 : ℚ) ≤ zoom) := by push_neg at hz ⊢; linarith
      simp [effectiveLimit, maxPointsEntries, findLimit,
        hz, h8, h10, h12, h14, h16, h18, h20]

/-- **C10.** Whenever the input has no more points than the zoom level's
effective limit, `samplePointsForZoom` returns the input list itself,
unchanged and in order. -/
theorem samplePointsForZoom_small_input_id
    (rand : ℕ → ℚ) (points : List TrafficFlowPoint) (zoom : ℚ)
    (h : points.length ≤ effectiveLimit zoom) :
    samplePointsForZoom rand points zoom = points := by
  unfold samplePointsForZoom
  simp [h]

/-- Witness for C10: a two-point list at zoom 14 (effective limit 100) is
returned unchanged. -/
theorem samplePointsForZoom_small_input_id_witness :
    samplePointsForZoom (fun _ => 1/2)
      [{ id := "a", position := ⟨0, 0⟩, nextPosition := ⟨1, 1⟩, bearing := 0,
         progress := 0, routeIndex := 0, speed := 1, intensity := none,
         movementType := some .vehicle },
       { id := "b", position := ⟨0, 0⟩, nextPosition := ⟨1, 1⟩, bearing := 0,
         progress := 0, routeIndex := 0, speed := 1, intensity := none,
         movementType := some .pedestrian }] 14 =
      [{ id := "a", position := ⟨0, 0⟩, nextPosition := ⟨1, 1⟩, bearing := 0,
         progress := 0, routeIndex := 0, speed := 1, intensity := none,
         movementType := some .vehicle },
       { id := "b", position := ⟨0, 0⟩, nextPosition := ⟨1, 1⟩, bearing := 0,
         progress := 0, routeIndex := 0, speed := 1, intensity := none,
         movementType := some .pedestrian }] :=
  samplePointsForZoom_small_input_id _ _ 14
    (by norm_num [effectiveLimit, maxPointsEntries, findLimit])

/-! ## Proof infrastructure for claim C3 -/

lemma keepSampled_eq_nil (rand : ℕ → ℚ) (rate : ℚ)
    (h : ∀ n, ¬ rand n ≤ rate) : ∀ n l, keepSampled rand rate n l = [] := by
  intro n l
  induction l generalizing n with
  | nil => rfl
  | cons p ps ih => simp [keepSampled, h n, ih]

lemma keepSampled_eq_self (rand : ℕ → ℚ) (rate : ℚ)
    (h : ∀ n, rand n ≤ rate) : ∀ n l, keepSampled rand rate n l = l := by
  intro n l
  induction l generalizing n with
  | nil => rfl
  | cons p ps ih => simp [keepSampled, h n, ih]

lemma keepSampled_subset (rand : ℕ → ℚ) (rate : ℚ) :
    ∀ n l p, p ∈ keepSampled rand rate n l → p ∈ l := by
  intro n l
  induction l generalizing n with
  | nil => intro p hp; simp [keepSampled] at hp
  | cons q qs ih =>
      intro p hp
      by_cases hk : rand n ≤ rate
      · rw [keepSampled, if_pos hk] at hp
        rcases List.mem_cons.mp hp with h | h
        · exact h ▸ List.mem_cons_self q qs
        · exact List.mem_cons_of_mem q (ih (n + 1) p h)
      · rw [keepSampled, if_neg hk] at hp
        exact List.mem_cons_of_mem q (ih (n + 1) p hp)

lemma filterByType_replicate (t : MovementType) (n : ℕ) (p : TrafficFlowPoint) :
    filterByType t (List.replicate n p) =
      if p.movementType = some t then List.replicate n p else [] := by
  induction n with
  | zero => simp [filterByType]
  | succ k ih =>
      rw [List.replicate_succ]
      by_cases h : p.movementType = some t <;>
        simp [filterByType, h, ih]

lemma filterByType_append (t : MovementType) (l1 l2 : List TrafficFlowPoint) :
    filterByType t (l1 ++ l2) = filterByType t l1 ++ filterByType t l2 := by
  simp [filterByType, List.filter_append]

lemma filterByType_idem (t : MovementType) (points : List TrafficFlowPoint) :
    filterByType t (filterByType t points) = filterByType t points := by
  induction points with
  | nil => rfl
  | cons p ps ih =>
      by_cases h : p.movementType = some t <;> simp [filterByType, h, ih]

lemma filterByType_keepSampled_ne (t tp : MovementType) (hne : tp ≠ t)
    (points : List TrafficFlowPoint) (rand : ℕ → ℚ) (rate : ℚ) (n : ℕ) :
    filterByType t (keepSampled rand rate n (filterByType tp points)) = [] := by
  apply List.filter_eq_nil_iff.mpr
  intro p hp
  have hmem := keepSampled_subset rand rate n _ p hp
  have : p.movementType = some tp := by
    simpa [filterByType] using (List.mem_filter.mp hmem).2
  simp [this, hne]

/-- 50 pedestrian, 50 vehicle, 50 transit and 50 bicycle points: the C3
scenario (all four types present, at least 50 points each). -/
def pPed : TrafficFlowPoint :=
  { id := "p", position := ⟨0, 0⟩, nextPosition := ⟨1, 1⟩, bearing := 0,
    progress := 0, routeIndex := 0, speed := 1, intensity := some 1,
    movementType := some .pedestrian }

def pVeh : TrafficFlowPoint := { pPed with id := "v", movementType := some .vehicle }

def pTra : TrafficFlowPoint := { pPed with id := "t", movementType := some .transit }

def pBic : TrafficFlowPoint := { pPed with id := "b", movementType := some .bicycle }

def stratPts : List TrafficFlowPoint :=
  List.replicate 50 pPed ++ List.replicate 50 pVeh ++
    List.replicate 50 pTra ++ List.replicate 50 pBic

/-- **C3, counterexample.**  The stratified sampling keeps each point only
when the next `Math.random()` draw is at most the type's sampling rate, so it
gives no hard guarantee: on an input with all four types (50 points each) at
zoom 10 (effective limit 100 ≥ 40), a random stream that constantly returns
9/10 (a perfectly possible sequence of `Math.random()` results, each type's
rate being 25/50 = 1/2) yields an empty sample — zero points of every
present type, not the claimed ten. -/
theorem samplePointsForZoom_drops_category :
    (filterByType .pedestrian stratPts).length = 50 ∧
    (filterByType .vehicle stratPts).length = 50 ∧
    (filterByType .transit stratPts).length = 50 ∧
    (filterByType .bicycle stratPts).length = 50 ∧
    40 ≤ effectiveLimit 10 ∧
    samplePointsForZoom (fun _ => 9/10) stratPts 10 = [] := by
  have hmtP : pPed.movementType = some MovementType.pedestrian := rfl
  have hmtV : pVeh.movementType = some MovementType.vehicle := rfl
  have hmtT : pTra.movementType = some MovementType.transit := rfl
  have hmtB : pBic.movementType = some MovementType.bicycle := rfl
  have hlim : effectiveLimit 10 = 100 := by
    norm_num [effectiveLimit, maxPointsEntries, findLimit]
  have hlen : stratPts.length = 200 := by
    rw [stratPts]
    simp only [List.length_append, List.length_replicate]
  have hfp : filterByType .pedestrian stratPts = List.replicate 50 pPed := by
    rw [stratPts, filterByType_append, filterByType_append, filterByType_append,
      filterByType_replicate, filterByType_replicate, filterByType_replicate,
      filterByType_replicate, if_pos hmtP, if_neg (by rw [hmtV]; simp),
      if_neg (by rw [hmtT]; simp), if_neg (by rw [hmtB]; simp)]
    simp only [List.append_nil]
  have hfv : filterByType .vehicle stratPts = List.replicate 50 pVeh := by
    rw [stratPts, filterByType_append, filterByType_append, filterByType_append,
      filterByType_replicate, filterByType_replicate, filterByType_replicate,
      filterByType_replicate, if_pos hmtV, if_neg (by rw [hmtP]; simp),
      if_neg (by rw [hmtT]; simp), if_neg (by rw [hmtB]; simp)]
    simp only [List.append_nil, List.nil_append]
  have hft : filterByType .transit stratPts = List.replicate 50 pTra := by
    rw [stratPts, filterByType_append, filterByType_append, filterByType_append,
      filterByType_replicate, filterByType_replicate, filterByType_replicate,
      filterByType_replicate, if_pos hmtT, if_neg (by rw [hmtP]; simp),
      if_neg (by rw [hmtV]; simp), if_neg (by rw [hmtB]; simp)]
    simp only [List.append_nil, List.nil_append]
  have hfb : filterByType .bicycle stratPts = List.replicate 50 pBic := by
    rw [stratPts, filterByType_append, filterByType_append, filterByType_append,
      filterByType_replicate, filterByType_replicate, filterByType_replicate,
      filterByType_replicate, if_pos hmtB, if_neg (by rw [hmtP]; simp),
      if_neg (by rw [hmtV]; simp), if_neg (by rw [hmtT]; simp)]
    simp only [List.append_nil, List.nil_append]
  have htl : typeLimitOf 100 200 50 = 25 := by
    have h : (((100 : ℕ) : ℚ)) * (((50 : ℕ) : ℚ) / ((200 : ℕ) : ℚ)) = ((25 : ℤ) : ℚ) := by
      push_cast
      norm_num
    rw [typeLimitOf, h, Int.floor_intCast]
    rfl
  have hrate : (typeLimitOf 100 200 50 : ℚ) / ((50 : ℕ) : ℚ) = 1/2 := by
    rw [htl]; norm_num
  have hdrop : ∀ n : ℕ, ¬ ((fun _ : ℕ => (9 : ℚ)/10) n ≤ 1/2) := by
    intro n; norm_num
  refine ⟨by rw [hfp, List.length_replicate], by rw [hfv, List.length_replicate],
    by rw [hft, List.length_replicate], by rw [hfb, List.length_replicate],
    by rw [hlim]; norm_num, ?_⟩
  unfold samplePointsForZoom
  rw [hlim, hlen, if_neg (by norm_num), hfp, hfv, hft, hfb]
  simp only [sampleGroups, List.length_replicate, hrate]
  rw [keepSampled_eq_nil _ _ hdrop, keepSampled_eq_nil _ _ hdrop,
    keepSampled_eq_nil _ _ hdrop, keepSampled_eq_nil _ _ hdrop]
  rfl

lemma filterByType_keepSampled_self
    (rand : ℕ → ℚ) (hrand : ∀ n, 0 ≤ rand n ∧ rand n < 1)
    (points : List TrafficFlowPoint) (limit total : ℕ) (t : MovementType) (n : ℕ)
    (hsmall : (filterByType t points).length ≤ 10) :
    keepSampled rand
        ((typeLimitOf limit total (filterByType t points).length : ℚ) /
          (((filterByType t points).length : ℕ) : ℚ)) n (filterByType t points)
      = filterByType t points := by
  rcases Nat.eq_zero_or_pos (filterByType t points).length with h0 | hpos
  · rw [List.length_eq_zero.mp h0]
    rfl
  · have hlen : (0 : ℚ) < ((filterByType t points).length : ℚ) := by
      exact_mod_cast hpos
    have hten : ((filterByType t points).length : ℚ) ≤ 10 := by
      exact_mod_cast hsmall
    have htl : (10 : ℚ) ≤ (typeLimitOf limit total (filterByType t points).length : ℚ) := by
      have : (10 : ℤ) ≤ typeLimitOf limit total (filterByType t points).length :=
        le_max_left _ _
      exact_mod_cast this
    have hrate : 1 ≤ (typeLimitOf limit total (filterByType t points).length : ℚ) /
        (((filterByType t points).length : ℕ) : ℚ) := by
      rw [one_le_div hlen]
      linarith
    exact keepSampled_eq_self rand _
      (fun m => le_trans (le_of_lt (hrand m).2) hrate) n _

/-- **C3, amended.**  If a movement type has at most 10 points in the input,
its sampling rate is at least 1, so `samplePointsForZoom` keeps all of them:
the filtered output for that type equals the filtered input.  (For types with
more than 10 points the ≥ 10 floor holds only in expectation — see the
counterexample.) -/
theorem samplePointsForZoom_small_type_all_kept
    (rand : ℕ → ℚ) (hrand : ∀ n, 0 ≤ rand n ∧ rand n < 1)
    (points : List TrafficFlowPoint) (zoom : ℚ) (t : MovementType)
    (hsmall : (filterByType t points).length ≤ 10) :
    filterByType t (samplePointsForZoom rand points zoom) =
      filterByType t points := by
  rw [samplePointsForZoom]
  split
  · rfl
  · simp only [sampleGroups, List.append_nil]
    rw [filterByType_append, filterByType_append, filterByType_append]
    cases t with
    | pedestrian =>
        rw [filterByType_keepSampled_ne .pedestrian .vehicle (by simp) points,
          filterByType_keepSampled_ne .pedestrian .transit (by simp) points,
          filterByType_keepSampled_ne .pedestrian .bicycle (by simp) points,
          filterByType_keepSampled_self rand hrand points _ _ _ _ hsmall,
          filterByType_idem]
        simp
    | vehicle =>
        rw [filterByType_keepSampled_ne .vehicle .pedestrian (by simp) points,
          filterByType_keepSampled_ne .vehicle .transit (by simp) points,
          filterByType_keepSampled_ne .vehicle .bicycle (by simp) points,
          filterByType_keepSampled_self rand hrand points _ _ _ _ hsmall,
          filterByType_idem]
        simp
    | transit =>
        rw [filterByType_keepSampled_ne .transit .pedestrian (by simp) points,
          filterByType_keepSampled_ne .transit .vehicle (by simp) points,
          filterByType_keepSampled_ne .transit .bicycle (by simp) points,
          filterByType_keepSampled_self rand hrand points _ _ _ _ hsmall,
          filterByType_idem]
        simp
    | bicycle =>
        rw [filterByType_keepSampled_ne .bicycle .pedestrian (by simp) points,
          filterByType_keepSampled_ne .bicycle .vehicle (by simp) points,
          filterByType_keepSampled_ne .bicycle .transit (by simp) points,
          filterByType_keepSampled_self rand hrand points _ _ _ _ hsmall,
          filterByType_idem]
        simp

/-- Witness for the amended C3: five pedestrians among 120 vehicles at zoom
10 are all retained (here with the constant-zero random stream). -/
theorem samplePointsForZoom_small_type_all_kept_witness :
    filterByType .pedestrian
        (samplePointsForZoom (fun _ => 0)
          (List.replicate 5 pPed ++ List.replicate 120 pVeh) 10) =
      filterByType .pedestrian (List.replicate 5 pPed ++ List.replicate 120 pVeh) :=
  samplePointsForZoom_small_type_all_kept (fun _ => 0)
    (fun _ => ⟨le_refl 0, by norm_num⟩)
    (List.replicate 5 pPed ++ List.replicate 120 pVeh) 10 .pedestrian
    (by rw [filterByType_append, filterByType_replicate, filterByType_replicate,
          if_pos (show pPed.movementType = some MovementType.pedestrian from rfl),
          if_neg (by rw [show pVeh.movementType = some MovementType.vehicle from rfl]; simp)]
        simp only [List.append_nil, List.length_replicate]
        norm_num)

/-! ## `src/utils/maps.ts`: simulated traffic flow -/

/-- `City` of `src/types/index.ts`. -/
structure City where
  name : String
  center : Coord
  zoom : ℚ
deriving DecidableEq, Repr

/-- `TimeRange` of `src/types/index.ts`.  `generateSimulatedTrafficFlow`
receives one but its body never reads it. -/
structure TimeRange where
  id : String
  label : String
  value : ℚ
  granularity : Option ℚ
deriving DecidableEq, Repr

/-- `new Date(timestamp).getHours()` for the UTC timezone (`timestamp` in
milliseconds). -/
def jsGetHoursUTC (timestamp : ℕ) : ℕ := timestamp / 3600000 % 24

/-- `new Date(timestamp).getDay()` for the UTC timezone: day of week with
0 = Sunday; the Unix epoch fell on a Thursday (4). -/
def jsGetDayUTC (timestamp : ℕ) : ℕ := (timestamp / 86400000 + 4) % 7

/-- `isWeekend = dayOfWeek === 0 || dayOfWeek === 6`. -/
def jsIsWeekend (timestamp : ℕ) : Bool :=
  jsGetDayUTC timestamp == 0 || jsGetDayUTC timestamp == 6

/-- The time-of-day `intensityFactor` of `generateSimulatedTrafficFlow`. -/
def intensityFactorOf (hour : ℕ) (isWeekend : Bool) : ℚ :=
  if (7 ≤ hour ∧ hour ≤ 9) ∨ (16 ≤ hour ∧ hour ≤ 18) then
    if isWeekend then 6/5 else 9/5
  else if 10 ≤ hour ∧ hour ≤ 15 then 13/10
  else if 19 ≤ hour ∧ hour ≤ 22 then 7/5
  else 3/5

/-- `speedFactor = Math.max(0.5, 1.5 - intensityFactor * 0.5)`. -/
def simSpeedFactorOf (intensityFactor : ℚ) : ℚ :=
  max (1/2) (3/2 - intensityFactor * (1/2))

/-- `generateSimulatedTrafficFlow` (maps.ts).  Each loop iteration `i`
consumes eight `Math.random()` draws, in source order: `angle`, `distance`,
`endAngle`, `endDistance`, `pointIntensity`, `speed`, `progress`,
`routeIndex`.  The pushed object sets neither `movementType` (absent from
the literal) nor a normalized bearing (raw `atan2` degrees). -/
def generateSimulatedTrafficFlow (m : JsMath) (city : City) (timestamp : ℕ)
    (_timeRange : TimeRange) : List TrafficFlowPoint :=
  let hour := jsGetHoursUTC timestamp
  let isWeekend := jsIsWeekend timestamp
  let intensityFactor := intensityFactorOf hour isWeekend
  (List.range 100).map (fun i =>
    let angle := m.rand (8*i) * jsPI * 2
    let distance := m.rand (8*i+1) * (1/100) + 1/200
    let startLat := city.center.lat + m.cos angle * distance
    let startLng := city.center.lng + m.sin angle * distance
    let endAngle := angle + (m.rand (8*i+2) * jsPI) / 2 - jsPI / 4
    let endDistance := m.rand (8*i+3) * (1/100) + 1/200
    let endLat := startLat + m.cos endAngle * endDistance
    let endLng := startLng + m.sin endAngle * endDistance
    let bearing := m.atan2 (endLng - startLng) (endLat - startLat) * 180 / jsPI
    let pointIntensity := intensityFactor * (7/10 + m.rand (8*i+4) * (3/5))
    let speedFactor := simSpeedFactorOf intensityFactor
    let speed := speedFactor * (7/10 + m.rand (8*i+5) * (3/5))
    { id := "sim-" ++ toString i
      position := ⟨startLat, startLng⟩
      nextPosition := ⟨endLat, endLng⟩
      bearing := bearing
      progress := m.rand (8*i+6)
      routeIndex := ⌊m.rand (8*i+7) * 5⌋
      speed := speed
      intensity := some pointIntensity
      movementType := none })

lemma intensityFactorOf_rush (h : ℕ) (wk : Bool)
    (hh : (7 ≤ h ∧ h ≤ 9) ∨ (16 ≤ h ∧ h ≤ 18)) :
    intensityFactorOf h wk = if wk then 6/5 else 9/5 := by
  unfold intensityFactorOf
  rw [if_pos hh]

lemma intensityFactorOf_midday (h : ℕ) (wk : Bool) (hh : 10 ≤ h ∧ h ≤ 15) :
    intensityFactorOf h wk = 13/10 := by
  unfold intensityFactorOf
  rw [if_neg (by omega), if_pos hh]

lemma intensityFactorOf_evening (h : ℕ) (wk : Bool) (hh : 19 ≤ h ∧ h ≤ 22) :
    intensityFactorOf h wk = 7/5 := by
  unfold intensityFactorOf
  rw [if_neg (by omega), if_neg (by omega), if_pos hh]

lemma intensityFactorOf_night (h : ℕ) (wk : Bool) (hh : h ≤ 6 ∨ h = 23) :
    intensityFactorOf h wk = 3/5 := by
  unfold intensityFactorOf
  rw [if_neg (by omega), if_neg (by omega), if_neg (by omega)]

lemma simSpeedFactorOf_antitone (f1 f2 : ℚ) (h : f1 ≤ f2) :
    simSpeedFactorOf f2 ≤ simSpeedFactorOf f1 :=
  max_le_max (le_refl _) (by linarith)

lemma simSpeedFactorOf_strict (f1 f2 : ℚ) (h : f1 < f2) (h2 : f2 ≤ 9/5) :
    simSpeedFactorOf f2 < simSpeedFactorOf f1 := by
  have hv2 : simSpeedFactorOf f2 = 3/2 - f2 * (1/2) := by
    unfold simSpeedFactorOf
    exact max_eq_right (by linarith)
  have hv1 : 3/2 - f1 * (1/2) ≤ simSpeedFactorOf f1 := le_max_right _ _
  rw [hv2]
  linarith

/-- **C5.** With no route source, `generateSimulatedTrafficFlow` returns
exactly 100 points (nonempty); each point's intensity is the time-of-day
intensity factor scaled by `0.7 + r·0.6` for a fresh random `r ∈ [0,1)`;
each point's speed is `max(0.5, 1.5 − 0.5·factor)` scaled likewise, and that
speed factor is inversely related to the intensity factor (strictly, on the
factors the table produces, which all lie below 9/5 inclusive); the factor
table is rush ×1.8 weekday / ×1.2 weekend, midday ×1.3, evening ×1.4, night
×0.6; and every point's initial progress is its own independent random draw
(the `8·i+6`-th), lying in `[0,1)`. -/
theorem generateSimulatedTrafficFlow_spec
    (m : JsMath) (hm : m.Valid) (city : City) (ts : ℕ) (tr : TimeRange) :
    (generateSimulatedTrafficFlow m city ts tr).length = 100 ∧
    generateSimulatedTrafficFlow m city ts tr ≠ [] ∧
    (∀ p ∈ generateSimulatedTrafficFlow m city ts tr,
      (0 ≤ p.progress ∧ p.progress < 1) ∧
      (∃ r, 0 ≤ r ∧ r < 1 ∧ p.intensity =
        some (intensityFactorOf (jsGetHoursUTC ts) (jsIsWeekend ts) * (7/10 + r * (3/5)))) ∧
      (∃ s, 0 ≤ s ∧ s < 1 ∧ p.speed =
        simSpeedFactorOf (intensityFactorOf (jsGetHoursUTC ts) (jsIsWeekend ts))
          * (7/10 + s * (3/5)))) ∧
    (∀ i, i < 100 → ∃ p, (generateSimulatedTrafficFlow m city ts tr).get? i = some p ∧
      p.progress = m.rand (8*i+6)) ∧
    (∀ h : ℕ, ∀ wk : Bool,
      ((7 ≤ h ∧ h ≤ 9) ∨ (16 ≤ h ∧ h ≤ 18) →
        intensityFactorOf h wk = if wk then 6/5 else 9/5) ∧
      (10 ≤ h ∧ h ≤ 15 → intensityFactorOf h wk = 13/10) ∧
      (19 ≤ h ∧ h ≤ 22 → intensityFactorOf h wk = 7/5) ∧
      (h ≤ 6 ∨ h = 23 → intensityFactorOf h wk = 3/5)) ∧
    (∀ f1 f2 : ℚ, f1 ≤ f2 → simSpeedFactorOf f2 ≤ simSpeedFactorOf f1) ∧
    (∀ f1 f2 : ℚ, f1 < f2 → f2 ≤ 9/5 → simSpeedFactorOf f2 < simSpeedFactorOf f1) := by
  have hlen : (generateSimulatedTrafficFlow m city ts tr).length = 100 := by
    unfold generateSimulatedTrafficFlow
    rw [List.length_map, List.length_range]
  refine ⟨hlen, ?_, ?_, ?_, ?_, simSpeedFactorOf_antitone, simSpeedFactorOf_strict⟩
  · intro hnil
    rw [hnil] at hlen
    simp at hlen
  · intro p hp
    unfold generateSimulatedTrafficFlow at hp
    simp only [List.mem_map, List.mem_range] at hp
    obtain ⟨i, _, rfl⟩ := hp
    refine ⟨⟨(hm.1 (8*i+6)).1, (hm.1 (8*i+6)).2⟩, ⟨m.rand (8*i+4),
      (hm.1 (8*i+4)).1, (hm.1 (8*i+4)).2, rfl⟩, ⟨m.rand (8*i+5),
      (hm.1 (8*i+5)).1, (hm.1 (8*i+5)).2, rfl⟩⟩
  · intro i hi
    unfold generateSimulatedTrafficFlow
    rw [List.get?_map, List.get?_range hi]
    exact ⟨_, rfl, rfl⟩
  · intro h wk
    exact ⟨intensityFactorOf_rush h wk, intensityFactorOf_midday h wk,
      intensityFactorOf_evening h wk, intensityFactorOf_night h wk⟩

/-- A concrete valid oracle for witnesses. -/
def mW : JsMath :=
  { rand := fun _ => 1/2
    cos := fun _ => 1/2
    sin := fun x => if x < 0 then -1/2 else 1/2
    atan2 := fun y _ => if y < 0 then -1 else 1 }

lemma mW_valid : mW.Valid := by
  refine ⟨fun n => ⟨by norm_num [mW], by norm_num [mW]⟩,
    fun x => ⟨by norm_num [mW], by norm_num [mW]⟩,
    fun x => ?_, fun y x => ?_, fun y x hy => ?_, fun x h1 h2 => ?_⟩
  · constructor <;> simp only [mW] <;> split <;> norm_num
  · constructor <;> simp only [mW] <;> split <;> norm_num [jsPI]
  · simp only [mW, if_pos hy]
    norm_num
  · simp only [mW, if_pos h2]
    norm_num

/-- Witness for C5 at a concrete oracle, city and timestamp: 100 points are
produced (nonempty), and the intensity table and the strict inverse
speed-factor relation hold at concrete hours and factors. -/
theorem generateSimulatedTrafficFlow_spec_witness :
    (generateSimulatedTrafficFlow mW ⟨"c", ⟨0, 0⟩, 12⟩ 0 ⟨"d", "day", 1, none⟩).length = 100 ∧
    generateSimulatedTrafficFlow mW ⟨"c", ⟨0, 0⟩, 12⟩ 0 ⟨"d", "day", 1, none⟩ ≠ [] ∧
    intensityFactorOf 8 false = 9/5 ∧
    intensityFactorOf 8 true = 6/5 ∧
    intensityFactorOf 12 true = 13/10 ∧
    intensityFactorOf 20 true = 7/5 ∧
    intensityFactorOf 2 true = 3/5 ∧
    simSpeedFactorOf (9/5) < simSpeedFactorOf (3/5) := by
  have A := generateSimulatedTrafficFlow_spec mW mW_valid ⟨"c", ⟨0, 0⟩, 12⟩ 0
    ⟨"d", "day", 1, none⟩
  refine ⟨A.1, A.2.1, ?_, ?_, ?_, ?_, ?_, ?_⟩
  · simpa using (A.2.2.2.2.1 8 false).1 (Or.inl ⟨by omega, by omega⟩)
  · simpa using (A.2.2.2.2.1 8 true).1 (Or.inl ⟨by omega, by omega⟩)
  · exact (A.2.2.2.2.1 12 true).2.1 ⟨by omega, by omega⟩
  · exact (A.2.2.2.2.1 20 true).2.2.1 ⟨by omega, by omega⟩
  · exact (A.2.2.2.2.1 2 true).2.2.2 (Or.inl (by omega))
  · exact A.2.2.2.2.2.2 (3/5) (9/5) (by norm_num) (by norm_num)

/-! ## `src/components/Map.tsx`: heatmap aggregation -/

/-- `google.maps.visualization.WeightedLocation`. -/
structure WeightedLocation where
  location : Coord
  weight : ℚ
deriving DecidableEq, Repr

/-- The `heatmapData` built by `updateHeatmapFromFlowPoints`: each point is
mapped to its progress-interpolated position with weight `point.intensity || 1`
(JavaScript `||`: the fallback `1` is used when `intensity` is undefined
*or zero*). -/
def heatmapDataOf (points : List TrafficFlowPoint) : List WeightedLocation :=
  points.map (fun p =>
    { location := interpolatePosition p.position p.nextPosition p.progress
      weight := match p.intensity with
        | some w => if w = 0 then 1 else w
        | none => 1 })

/-- `updateHeatmapFromFlowPoints` (Map.tsx): when a heatmap layer exists the
code calls `heatmap.setData(heatmapData)`, otherwise it creates a new layer
from `heatmapData`; either way the resulting surface is `heatmapData` and the
prior surface is never read. -/
def updateHeatmapFromFlowPoints (prior : Option (List WeightedLocation))
    (points : List TrafficFlowPoint) : List WeightedLocation :=
  match prior with
  | some _ => heatmapDataOf points
  | none => heatmapDataOf points

/-- A flow point carrying an explicit zero intensity. -/
def pZeroIntensity : TrafficFlowPoint :=
  { id := "z", position := ⟨0, 0⟩, nextPosition := ⟨1, 1⟩, bearing := 0,
    progress := 1/2, routeIndex := 0, speed := 1, intensity := some 0,
    movementType := some .vehicle }

/-- **C7, counterexample.**  A point with `intensity = 0` is aggregated with
weight `1`, not with its intensity: the `|| 1` fallback applies to the falsy
value `0`, so the produced weight differs from the point's intensity. -/
theorem heatmap_weight_not_intensity :
    pZeroIntensity.intensity = some 0 ∧
    heatmapDataOf [pZeroIntensity] = [{ location := ⟨1/2, 1/2⟩, weight := 1 }] ∧
    (1 : ℚ) ≠ 0 := by
  refine ⟨rfl, ?_, by norm_num⟩
  simp only [heatmapDataOf, List.map_cons, List.map_nil, pZeroIntensity]
  norm_num [interpolatePosition]

/-- **C7, amended.**  The aggregation maps each point to its
progress-interpolated position with weight equal to the point's intensity
when that is present and nonzero, and `1` otherwise (the `|| 1` fallback);
it fully replaces the prior surface (the result does not depend on it), and
the empty input yields the empty surface, not an error. -/
theorem updateHeatmapFromFlowPoints_spec
    (prior prior2 : Option (List WeightedLocation)) (points : List TrafficFlowPoint) :
    updateHeatmapFromFlowPoints prior points = heatmapDataOf points ∧
    updateHeatmapFromFlowPoints prior points = updateHeatmapFromFlowPoints prior2 points ∧
    updateHeatmapFromFlowPoints prior [] = [] ∧
    (heatmapDataOf points).length = points.length ∧
    (∀ i, (heatmapDataOf points).get? i = (points.get? i).map (fun p =>
      { location := interpolatePosition p.position p.nextPosition p.progress
        weight := match p.intensity with
          | some w => if w = 0 then 1 else w
          | none => 1 })) := by
  refine ⟨?_, ?_, ?_, ?_, ?_⟩
  · cases prior <;> rfl
  · cases prior <;> cases prior2 <;> rfl
  · cases prior <;> rfl
  · simp [heatmapDataOf]
  · intro i
    simp [heatmapDataOf]

/-! ## `src/components/Map.tsx`: route-derived flow generation -/

/-- One entry of `leg.steps`: the polyline `path` (absent when
`!step.path`), and the `.value` numbers of the optional `duration` and
`distance` objects. -/
structure RouteStep where
  path : Option (List Coord)
  duration : Option ℚ
  distance : Option ℚ
deriving DecidableEq, Repr

/-- `MAX_TOTAL_POINTS` (Map.tsx). -/
def MAX_TOTAL_POINTS : ℕ := 5000

/-- The mutable loop state of `updateFlowVisualization`: the accumulated
`newFlowPoints`, the `Math.random()` call counter, the `pointId` counter,
and whether `break routeProcessing` has fired. -/
structure GenState where
  pts : List TrafficFlowPoint
  ctr : ℕ
  pid : ℕ
  stopped : Bool
deriving DecidableEq, Repr

def mtName : MovementType → String
  | .pedestrian => "pedestrian"
  | .vehicle => "vehicle"
  | .transit => "transit"
  | .bicycle => "bicycle"

/-- The time-of-day base `intensity` of the route loop. -/
def stepIntensityBase (hour : ℕ) (isWeekend : Bool) : ℚ :=
  if (7 ≤ hour ∧ hour ≤ 9) ∨ (16 ≤ hour ∧ hour ≤ 18) then
    if isWeekend then 7/10 else 9/10
  else if 10 ≤ hour ∧ hour ≤ 15 then 3/5
  else if 19 ≤ hour ∧ hour ≤ 22 then 1/2
  else 3/10

/-- The per-movement-type intensity adjustment of the route loop. -/
def stepIntensity (hour : ℕ) (isWeekend : Bool) (mt : MovementType) : ℚ :=
  let base := stepIntensityBase hour isWeekend
  match mt with
  | .pedestrian =>
      if isWeekend = true ∨ (10 ≤ hour ∧ hour ≤ 20) then base * (13/10) else base * (7/10)
  | .bicycle => base * (if 7 ≤ hour ∧ hour ≤ 19 then 6/5 else 2/5)
  | .transit => base * (if 6 ≤ hour ∧ hour ≤ 22 then 1 else 1/5)
  | .vehicle => base

/-- The per-point `speed` computation: defaults to `1` without
duration/distance; with them, pedestrians/bicycles/transit use fixed base
speeds while vehicles scale the API speed by `0.9 + Math.random()*0.2`
(consuming one draw); the result is `0.5 + Math.min(1.5, baseSpeed/10)`.
Returns the speed and the updated draw counter. -/
def flowSpeed (m : JsMath) (ctr : ℕ) (dur dist : Option ℚ) (mt : MovementType) : ℚ × ℕ :=
  match dur, dist with
  | some d, some s =>
      match mt with
      | .pedestrian => (1/2 + min (3/2) ((7/5)/10), ctr)
      | .bicycle => (1/2 + min (3/2) ((4:ℚ)/10), ctr)
      | .transit => (1/2 + min (3/2) ((8:ℚ)/10), ctr)
      | .vehicle =>
          let baseSpeed := s / d * (9/10 + m.rand ctr * (1/5))
          (1/2 + min (3/2) (baseSpeed/10), ctr + 1)
  | _, _ => (1, ctr)

/-- The `for (const movementType of movementTypes)` loop over one path
segment: for each type, break out of everything once 5000 points exist,
skip unselected types, otherwise push one flow point (speed draw first,
then the `progress` draw, as in the source order). -/
def procTypes (m : JsMath) (sel : List MovementType) (hour : ℕ) (wk : Bool)
    (routeIdx : ℕ) (startC endC : Coord) (bearing : ℚ) (dur dist : Option ℚ) :
    List MovementType → GenState → GenState
  | [], st => st
  | mt :: rest, st =>
      if MAX_TOTAL_POINTS ≤ st.pts.length then { st with stopped := true }
      else if mt ∉ sel then
        procTypes m sel hour wk routeIdx startC endC bearing dur dist rest st
      else
        let sp := flowSpeed m st.ctr dur dist mt
        let point : TrafficFlowPoint :=
          { id := "flow-" ++ toString routeIdx ++ "-" ++ mtName mt ++ "-" ++ toString st.pid
            position := startC
            nextPosition := endC
            bearing := bearing
            progress := m.rand sp.2
            routeIndex := (routeIdx : ℤ)
            speed := sp.1
            intensity := some (stepIntensity hour wk mt)
            movementType := some mt }
        procTypes m sel hour wk routeIdx startC endC bearing dur dist rest
          { pts := st.pts ++ [point], ctr := sp.2 + 1, pid := st.pid + 1,
            stopped := st.stopped }

/-- The body of one `for i` iteration after the near-cap check: extract the
segment endpoints, compute the raw `atan2` bearing, and run the movement
types. -/
def procSegmentCore (m : JsMath) (sel : List MovementType) (hour : ℕ) (wk : Bool)
    (routeIdx : ℕ) (path : List Coord) (dur dist : Option ℚ)
    (types : List MovementType) (st : GenState) (i : ℕ) : GenState :=
  let start := path.getD i ⟨0, 0⟩
  let stop := path.getD (i + 1) ⟨0, 0⟩
  let bearing := m.atan2 (stop.lng - start.lng) (stop.lat - start.lat) * 180 / jsPI
  procTypes m sel hour wk routeIdx start stop bearing dur dist types st

/-- One `for i` iteration: nothing happens after `break routeProcessing`;
near the cap (`length > 0.8 * 5000`) one draw decides (at rate 0.7) whether
the whole candidate segment is skipped — the draw happens only in that
regime, because `&&` short-circuits. -/
def procSegment (m : JsMath) (sel : List MovementType) (hour : ℕ) (wk : Bool)
    (routeIdx : ℕ) (path : List Coord) (dur dist : Option ℚ)
    (types : List MovementType) (st : GenState) (i : ℕ) : GenState :=
  if st.stopped then st
  else if 4000 < st.pts.length then
    if m.rand st.ctr < 7/10 then { st with ctr := st.ctr + 1 }
    else procSegmentCore m sel hour wk routeIdx path dur dist types
      { st with ctr := st.ctr + 1 } i
  else procSegmentCore m sel hour wk routeIdx path dur dist types st i

/-- `movementTypes` for one step: always `vehicle`; pedestrian with
probability 0.4; transit with 0.2; bicycle drawn (0.3) only during
`hour ∈ [7,19]` (the `&&` short-circuits the draw otherwise). -/
def buildTypes (m : JsMath) (hour : ℕ) (st : GenState) :
    List MovementType × GenState :=
  let t1 : List MovementType := if m.rand st.ctr < 2/5 then [.pedestrian] else []
  let t2 : List MovementType := if m.rand (st.ctr + 1) < 1/5 then [.transit] else []
  if 7 ≤ hour ∧ hour ≤ 19 then
    let t3 : List MovementType := if m.rand (st.ctr + 2) < 3/10 then [.bicycle] else []
    (.vehicle :: (t1 ++ t2 ++ t3), { st with ctr := st.ctr + 3 })
  else
    (.vehicle :: (t1 ++ t2), { st with ctr := st.ctr + 2 })

/-- One step of a route: skip when the path is missing, otherwise build the
movement types, then walk the path indices `0, skipFactor, 2·skipFactor, …`
below `path.length - 1`, where `skipFactor = max(1, ceil(path.length/10))`. -/
def procStep (m : JsMath) (sel : List MovementType) (hour : ℕ) (wk : Bool)
    (routeIdx : ℕ) (step : RouteStep) (st : GenState) : GenState :=
  if st.stopped then st
  else
    match step.path with
    | none => st
    | some path =>
        let bt := buildTypes m hour st
        let skipFactor := max 1 ((path.length + 9) / 10)
        let idxs := (List.range (path.length - 1)).filter (fun i => i % skipFactor = 0)
        idxs.foldl
          (procSegment m sel hour wk routeIdx path step.duration step.distance bt.1)
          bt.2

/-- One `directionsResults` entry: `None` models any of the
missing-`routes`/`legs`/`steps` guards (the `continue` cases); otherwise the
steps are truncated to `MAX_TOTAL_POINTS / (routesToProcess.length * 5)`
(JS float division truncated by `slice`, i.e. `1000 / nRoutes` in naturals). -/
def procRoute (m : JsMath) (sel : List MovementType) (hour : ℕ) (wk : Bool)
    (nRoutes : ℕ) (st : GenState) (entry : ℕ × Option (List RouteStep)) : GenState :=
  if st.stopped then st
  else
    match entry.2 with
    | none => st
    | some steps =>
        (steps.take (1000 / nRoutes)).foldl
          (fun s stp => procStep m sel hour wk entry.1 stp s) st

/-- The flow-point generation of `updateFlowVisualization` (Map.tsx): at
most 10 routes are processed, starting from an empty accumulator. -/
def updateFlowVisualizationPoints (m : JsMath) (sel : List MovementType)
    (timestamp : ℕ) (directionsResults : List (Option (List RouteStep))) :
    List TrafficFlowPoint :=
  let routesToProcess := directionsResults.take 10
  (routesToProcess.enum.foldl
    (procRoute m sel (jsGetHoursUTC timestamp) (jsIsWeekend timestamp)
      routesToProcess.length)
    { pts := [], ctr := 0, pid := 0, stopped := false }).pts

/-! ## Proof infrastructure for claim C2 -/

lemma procTypes_cap (m : JsMath) (sel : List MovementType) (hour : ℕ) (wk : Bool)
    (routeIdx : ℕ) (s e : Coord) (b : ℚ) (dur dist : Option ℚ)
    (types : List MovementType) (st : GenState) (h : st.pts.length ≤ 5000) :
    (procTypes m sel hour wk routeIdx s e b dur dist types st).pts.length ≤ 5000 := by
  induction types generalizing st with
  | nil => exact h
  | cons mt rest ih =>
      rw [procTypes]
      split
      · exact h
      · split
        · exact ih st h
        · apply ih
          have hlt : ¬ (MAX_TOTAL_POINTS ≤ st.pts.length) := by assumption
          simp only [List.length_append, List.length_cons, List.length_nil,
            MAX_TOTAL_POINTS] at hlt ⊢
          omega

lemma procSegmentCore_cap (m : JsMath) (sel : List MovementType) (hour : ℕ)
    (wk : Bool) (routeIdx : ℕ) (path : List Coord) (dur dist : Option ℚ)
    (types : List MovementType) (st : GenState) (i : ℕ)
    (h : st.pts.length ≤ 5000) :
    (procSegmentCore m sel hour wk routeIdx path dur dist types st i).pts.length ≤ 5000 := by
  unfold procSegmentCore
  exact procTypes_cap m sel hour wk routeIdx _ _ _ dur dist types st h

lemma procSegment_cap (m : JsMath) (sel : List MovementType) (hour : ℕ)
    (wk : Bool) (routeIdx : ℕ) (path : List Coord) (dur dist : Option ℚ)
    (types : List MovementType) (st : GenState) (i : ℕ)
    (h : st.pts.length ≤ 5000) :
    (procSegment m sel hour wk routeIdx path dur dist types st i).pts.length ≤ 5000 := by
  unfold procSegment
  split
  · exact h
  · split
    · split
      · exact h
      · exact procSegmentCore_cap m sel hour wk routeIdx path dur dist types _ i h
    · exact procSegmentCore_cap m sel hour wk routeIdx path dur dist types st i h

lemma foldl_cap {α : Type} (f : GenState → α → GenState)
    (hf : ∀ st a, st.pts.length ≤ 5000 → (f st a).pts.length ≤ 5000) :
    ∀ (l : List α) (st : GenState), st.pts.length ≤ 5000 →
      (l.foldl f st).pts.length ≤ 5000 := by
  intro l
  induction l with
  | nil => intro st h; exact h
  | cons a rest ih =>
      intro st h
      rw [List.foldl_cons]
      exact ih (f st a) (hf st a h)

lemma buildTypes_pts (m : JsMath) (hour : ℕ) (st : GenState) :
    (buildTypes m hour st).2.pts = st.pts := by
  by_cases hh : 7 ≤ hour ∧ hour ≤ 19
  · simp only [buildTypes, if_pos hh]
  · simp only [buildTypes, if_neg hh]

lemma procStep_cap (m : JsMath) (sel : List MovementType) (hour : ℕ) (wk : Bool)
    (routeIdx : ℕ) (step : RouteStep) (st : GenState)
    (h : st.pts.length ≤ 5000) :
    (procStep m sel hour wk routeIdx step st).pts.length ≤ 5000 := by
  unfold procStep
  split
  · exact h
  · split
    · exact h
    · apply foldl_cap
      · intro st' i h'
        exact procSegment_cap m sel hour wk routeIdx _ _ _ _ st' i h'
      · rw [buildTypes_pts]
        exact h

lemma procRoute_cap (m : JsMath) (sel : List MovementType) (hour : ℕ) (wk : Bool)
    (nRoutes : ℕ) (st : GenState) (entry : ℕ × Option (List RouteStep))
    (h : st.pts.length ≤ 5000) :
    (procRoute m sel hour wk nRoutes st entry).pts.length ≤ 5000 := by
  unfold procRoute
  split
  · exact h
  · split
    · exact h
    · apply foldl_cap
      · intro st' stp h'
        exact procStep_cap m sel hour wk entry.1 stp st' h'
      · exact h

/-- **C2.** The route-derived generation never accumulates more than 5000
flow points (each push is guarded by the `break routeProcessing` check), and
above 80 % of the cap (more than 4000 points) a candidate segment whose drop
draw is below 0.7 is skipped entirely, advancing only the random counter. -/
theorem updateFlowVisualization_point_cap (m : JsMath) (sel : List MovementType)
    (ts : ℕ) (results : List (Option (List RouteStep))) :
    (updateFlowVisualizationPoints m sel ts results).length ≤ 5000 ∧
    (∀ (routeIdx : ℕ) (path : List Coord) (dur dist : Option ℚ)
        (types : List MovementType) (st : GenState) (i : ℕ),
      st.stopped = false → 4000 < st.pts.length → m.rand st.ctr < 7/10 →
      procSegment m sel (jsGetHoursUTC ts) (jsIsWeekend ts) routeIdx path dur dist
          types st i = { st with ctr := st.ctr + 1 }) := by
  constructor
  · unfold updateFlowVisualizationPoints
    apply foldl_cap
    · intro st e h
      exact procRoute_cap m sel _ _ _ st e h
    · simp
  · intro routeIdx path dur dist types st i hstop h4 hr
    rw [procSegment, if_neg (by simp [hstop]), if_pos h4, if_pos hr]

/-- The loop state sitting just above 80 % of the cap. -/
def stNearCap : GenState :=
  { pts := List.replicate 4001 pVeh, ctr := 0, pid := 0, stopped := false }

/-- Witness for C2: a concrete one-route input stays under the cap, and at a
4001-point state with a drop draw of 1/2 < 0.7 the candidate segment is
skipped with only the counter advanced. -/
theorem updateFlowVisualization_point_cap_witness :
    (updateFlowVisualizationPoints mW [.vehicle] 0
      [some [⟨some [⟨0, 0⟩, ⟨1, 1⟩], some 10, some 100⟩]]).length ≤ 5000 ∧
    procSegment mW [.vehicle] (jsGetHoursUTC 0) (jsIsWeekend 0) 0 [⟨0, 0⟩, ⟨1, 1⟩]
        none none [.vehicle] stNearCap 0 = { stNearCap with ctr := stNearCap.ctr + 1 } :=
  ⟨(updateFlowVisualization_point_cap mW [.vehicle] 0
      [some [⟨some [⟨0, 0⟩, ⟨1, 1⟩], some 10, some 100⟩]]).1,
   (updateFlowVisualization_point_cap mW [.vehicle] 0
      [some [⟨some [⟨0, 0⟩, ⟨1, 1⟩], some 10, some 100⟩]]).2
     0 [⟨0, 0⟩, ⟨1, 1⟩] none none [.vehicle] stNearCap 0 rfl
     (by rw [show stNearCap.pts = List.replicate 4001 pVeh from rfl,
           List.length_replicate]; omega)
     (by norm_num [mW, stNearCap])⟩

/-! ## Bearings (claim C6) -/

/-- `calculateBearing` (maps.ts).  This is the only place that normalizes a
bearing (`(bearing + 360) % 360`); the two generation paths above compute
raw `atan2` degrees instead and never call it. -/
def calculateBearing (m : JsMath) (start stop : Coord) : ℚ :=
  let startLat := start.lat * jsPI / 180
  let startLng := start.lng * jsPI / 180
  let endLat := stop.lat * jsPI / 180
  let endLng := stop.lng * jsPI / 180
  let y := m.sin (endLng - startLng) * m.cos endLat
  let x := m.cos startLat * m.sin endLat -
    m.sin startLat * m.cos endLat * m.cos (endLng - startLng)
  let bearing := m.atan2 y x * 180 / jsPI
  jsMod (bearing + 360) 360

lemma jsPI_pos : 0 < jsPI := by norm_num [jsPI]

lemma atan2deg_range (m : JsMath) (hm : m.Valid) (y x : ℚ) :
    -180 ≤ m.atan2 y x * 180 / jsPI ∧ m.atan2 y x * 180 / jsPI ≤ 180 := by
  obtain ⟨hlo, hhi⟩ := hm.2.2.2.1 y x
  constructor
  · rw [le_div_iff jsPI_pos]
    linarith
  · rw [div_le_iff jsPI_pos]
    linarith

lemma jsMod_nonneg_lt (a : ℚ) (ha : 0 ≤ a) :
    0 ≤ jsMod a 360 ∧ jsMod a 360 < 360 := by
  have h360 : (0 : ℚ) < 360 := by norm_num
  have hq : (0 : ℚ) ≤ a / 360 := div_nonneg ha (le_of_lt h360)
  have he : jsMod a 360 = 360 * Int.fract (a / 360) := by
    rw [jsMod, if_pos hq]
    simp only [Int.fract]
    field_simp
  have h1 := Int.fract_nonneg (a / 360)
  have h2 := Int.fract_lt_one (a / 360)
  exact ⟨by rw [he]; nlinarith, by rw [he]; nlinarith⟩

lemma calculateBearing_range (m : JsMath) (hm : m.Valid) (start stop : Coord) :
    0 ≤ calculateBearing m start stop ∧ calculateBearing m start stop < 360 := by
  unfold calculateBearing
  apply jsMod_nonneg_lt
  have h := (atan2deg_range m hm
    (m.sin (stop.lng * jsPI / 180 - start.lng * jsPI / 180) *
      m.cos (stop.lat * jsPI / 180))
    (m.cos (start.lat * jsPI / 180) * m.sin (stop.lat * jsPI / 180) -
      m.sin (start.lat * jsPI / 180) * m.cos (stop.lat * jsPI / 180) *
        m.cos (stop.lng * jsPI / 180 - start.lng * jsPI / 180))).1
  linarith

/-- The bearing shape shared by every point the route loop pushes. -/
def AtanBearing (m : JsMath) (p : TrafficFlowPoint) : Prop :=
  ∃ y x, p.bearing = m.atan2 y x * 180 / jsPI

lemma procTypes_mem_bearing (m : JsMath) (sel : List MovementType) (hour : ℕ)
    (wk : Bool) (routeIdx : ℕ) (s e : Coord) (b : ℚ) (dur dist : Option ℚ)
    (types : List MovementType) (st : GenState) (p : TrafficFlowPoint)
    (hp : p ∈ (procTypes m sel hour wk routeIdx s e b dur dist types st).pts) :
    p ∈ st.pts ∨ p.bearing = b := by
  induction types generalizing st with
  | nil => exact Or.inl hp
  | cons mt rest ih =>
      rw [procTypes] at hp
      split at hp
      · exact Or.inl hp
      · split at hp
        · exact ih st hp
        · rcases ih _ hp with h | h
          · simp only [List.mem_append, List.mem_singleton] at h
            rcases h with h | h
            · exact Or.inl h
            · right
              rw [h]
          · exact Or.inr h

lemma procSegmentCore_mem_bearing (m : JsMath) (sel : List MovementType)
    (hour : ℕ) (wk : Bool) (routeIdx : ℕ) (path : List Coord)
    (dur dist : Option ℚ) (types : List MovementType) (st : GenState) (i : ℕ)
    (p : TrafficFlowPoint)
    (hp : p ∈ (procSegmentCore m sel hour wk routeIdx path dur dist types st i).pts) :
    p ∈ st.pts ∨ AtanBearing m p := by
  unfold procSegmentCore at hp
  rcases procTypes_mem_bearing m sel hour wk routeIdx _ _ _ dur dist types st p hp with h | h
  · exact Or.inl h
  · exact Or.inr ⟨_, _, h⟩

lemma procSegment_mem_bearing (m : JsMath) (sel : List MovementType)
    (hour : ℕ) (wk : Bool) (routeIdx : ℕ) (path : List Coord)
    (dur dist : Option ℚ) (types : List MovementType) (st : GenState) (i : ℕ)
    (p : TrafficFlowPoint)
    (hp : p ∈ (procSegment m sel hour wk routeIdx path dur dist types st i).pts) :
    p ∈ st.pts ∨ AtanBearing m p := by
  unfold procSegment at hp
  split at hp
  · exact Or.inl hp
  · split at hp
    · split at hp
      · exact Or.inl hp
      · exact procSegmentCore_mem_bearing m sel hour wk routeIdx path dur dist types
          { st with ctr := st.ctr + 1 } i p hp
    · exact procSegmentCore_mem_bearing m sel hour wk routeIdx path dur dist types st i p hp

lemma foldl_mem_bearing {α : Type} (m : JsMath) (f : GenState → α → GenState)
    (hf : ∀ st a p, p ∈ (f st a).pts → p ∈ st.pts ∨ AtanBearing m p) :
    ∀ (l : List α) (st : GenState) (p : TrafficFlowPoint),
      p ∈ (l.foldl f st).pts → p ∈ st.pts ∨ AtanBearing m p := by
  intro l
  induction l with
  | nil => intro st p hp; exact Or.inl hp
  | cons a rest ih =>
      intro st p hp
      rw [List.foldl_cons] at hp
      rcases ih (f st a) p hp with h | h
      · exact hf st a p h
      · exact Or.inr h

lemma procStep_mem_bearing (m : JsMath) (sel : List MovementType) (hour : ℕ)
    (wk : Bool) (routeIdx : ℕ) (step : RouteStep) (st : GenState)
    (p : TrafficFlowPoint)
    (hp : p ∈ (procStep m sel hour wk routeIdx step st).pts) :
    p ∈ st.pts ∨ AtanBearing m p := by
  unfold procStep at hp
  split at hp
  · exact Or.inl hp
  · split at hp
    · exact Or.inl hp
    · have h := foldl_mem_bearing m _
        (fun st' i q hq =>
          procSegment_mem_bearing m sel hour wk routeIdx _ _ _ _ st' i q hq)
        _ _ p hp
      rwa [buildTypes_pts] at h

lemma procRoute_mem_bearing (m : JsMath) (sel : List MovementType) (hour : ℕ)
    (wk : Bool) (nRoutes : ℕ) (st : GenState) (entry : ℕ × Option (List RouteStep))
    (p : TrafficFlowPoint)
    (hp : p ∈ (procRoute m sel hour wk nRoutes st entry).pts) :
    p ∈ st.pts ∨ AtanBearing m p := by
  unfold procRoute at hp
  split at hp
  · exact Or.inl hp
  · split at hp
    · exact Or.inl hp
    · exact foldl_mem_bearing m _
        (fun st' stp q hq => procStep_mem_bearing m sel hour wk entry.1 stp st' q hq)
        _ st p hp

lemma updateFlowVisualizationPoints_bearing (m : JsMath) (sel : List MovementType)
    (ts : ℕ) (results : List (Option (List RouteStep))) (p : TrafficFlowPoint)
    (hp : p ∈ updateFlowVisualizationPoints m sel ts results) :
    AtanBearing m p := by
  unfold updateFlowVisualizationPoints at hp
  have h := foldl_mem_bearing m _
    (fun st e q hq =>
      procRoute_mem_bearing m sel (jsGetHoursUTC ts) (jsIsWeekend ts) _ st e q hq)
    _ _ p hp
  rcases h with h | h
  · simp at h
  · exact h

/-- **C6, amended.**  The only normalized bearing is the one computed by
`calculateBearing`, which indeed lies in `[0,360)` — but no generation path
calls it.  Points produced by the simulated generator and by the
route-derived loop carry raw `atan2` degrees, which lie in `[-180,180]` and
can be negative. -/
theorem bearing_ranges (m : JsMath) (hm : m.Valid) :
    (∀ start stop : Coord, 0 ≤ calculateBearing m start stop ∧
      calculateBearing m start stop < 360) ∧
    (∀ city ts tr, ∀ p ∈ generateSimulatedTrafficFlow m city ts tr,
      -180 ≤ p.bearing ∧ p.bearing ≤ 180) ∧
    (∀ sel ts results, ∀ p ∈ updateFlowVisualizationPoints m sel ts results,
      -180 ≤ p.bearing ∧ p.bearing ≤ 180) := by
  refine ⟨fun s e => calculateBearing_range m hm s e, ?_, ?_⟩
  · intro city ts tr p hp
    unfold generateSimulatedTrafficFlow at hp
    simp only [List.mem_map, List.mem_range] at hp
    obtain ⟨i, _, rfl⟩ := hp
    exact atan2deg_range m hm _ _
  · intro sel ts results p hp
    obtain ⟨y, x, hb⟩ := updateFlowVisualizationPoints_bearing m sel ts results p hp
    rw [hb]
    exact atan2deg_range m hm y x

/-- Witness for the amended C6: a concrete normalized bearing at a concrete
oracle lies in `[0,360)`. -/
theorem bearing_ranges_witness :
    0 ≤ calculateBearing mW ⟨0, 0⟩ ⟨1, 1⟩ ∧ calculateBearing mW ⟨0, 0⟩ ⟨1, 1⟩ < 360 :=
  (bearing_ranges mW mW_valid).1 ⟨0, 0⟩ ⟨1, 1⟩

/-- A valid oracle under which the first simulated point heads south-west:
`rand ≡ 0` makes `endAngle = -π/4 ∈ (-π,0)`, so the real sine is negative
there (the oracle returns `-1/2`), the longitude delta is negative, and the
real `atan2` of a negative first argument is negative (the oracle returns
`-π/2`). -/
def mNeg : JsMath :=
  { rand := fun _ => 0
    cos := fun _ => 1
    sin := fun x => if x < 0 then -1/2 else 0
    atan2 := fun y _ => if y < 0 then -(jsPI/2) else 0 }

lemma mNeg_valid : mNeg.Valid := by
  refine ⟨fun n => ⟨le_refl 0, by norm_num [mNeg]⟩,
    fun x => ⟨by norm_num [mNeg], by norm_num [mNeg]⟩,
    fun x => ?_, fun y x => ?_, fun y x hy => ?_, fun x h1 h2 => ?_⟩
  · constructor <;> simp only [mNeg] <;> split <;> norm_num
  · constructor <;> simp only [mNeg] <;> split <;> norm_num [jsPI]
  · simp only [mNeg, if_pos hy]
    norm_num [jsPI]
  · simp only [mNeg, if_pos h2]
    norm_num

lemma map_range_getD {α : Type} (n : ℕ) (f : ℕ → α) (d : α) (hn : 0 < n) :
    ((List.range n).map f).getD 0 d = f 0 := by
  cases n with
  | zero => omega
  | succ k =>
      rw [List.range_succ_eq_map]
      simp [List.getD]

/-- **C6, counterexample.**  Neither generator normalizes its bearing: under
the oracle `mNeg` (valid by `mNeg_valid`) the generated batch has 100 points
and its first point's bearing is `-90`, which is not in `[0,360)`. -/
theorem generated_bearing_negative :
    (generateSimulatedTrafficFlow mNeg ⟨"c", ⟨0, 0⟩, 12⟩ 0
      ⟨"d", "day", 1, none⟩).length = 100 ∧
    ((generateSimulatedTrafficFlow mNeg ⟨"c", ⟨0, 0⟩, 12⟩ 0
      ⟨"d", "day", 1, none⟩).getD 0 pW1).bearing = -90 := by
  constructor
  · simp only [generateSimulatedTrafficFlow]
    rw [List.length_map, List.length_range]
  · simp only [generateSimulatedTrafficFlow]
    rw [map_range_getD 100 _ _ (by norm_num)]
    norm_num [mNeg, jsPI]

/-! ## `src/unnamed/part_006`: time-slider stop control -/

/-- The component state relevant to stopping: `isPlaying`, the
`hasStoppedRef` flag, whether an animation frame is pending
(`animationRef.current !== null`), the slider position, the displayed
timestamp, and the time until which the stop button stays disabled
(`isStopButtonDisabled` together with its 300 ms `setTimeout` re-enable).
Time is `Date.now()` milliseconds. -/
structure TimeSliderState where
  isPlaying : Bool
  hasStopped : Bool
  animationPending : Bool
  sliderValue : ℚ
  displayTime : ℚ
  stopDisabledUntil : ℕ
deriving DecidableEq, Repr

/-- `stopPlayback` (part_006): set the stopped flag, stop playing, cancel
any pending animation frame, and force the slider to `100` and the displayed
time to the live edge `endTime`.  (The 100 ms `setTimeout` inside it merely
re-asserts the same three values when `hasStoppedRef` is still set, so it
does not change the resulting state.) -/
def stopPlayback (endTime : ℚ) (s : TimeSliderState) : TimeSliderState :=
  { s with
    hasStopped := true
    isPlaying := false
    animationPending := false
    sliderValue := 100
    displayTime := endTime }

/-- `handleStopClick` (part_006) invoked at time `now`: a no-op while the
button is disabled, otherwise runs `stopPlayback` and disables the button
for 300 ms. -/
def handleStopClick (endTime : ℚ) (now : ℕ) (s : TimeSliderState) : TimeSliderState :=
  if now < s.stopDisabledUntil then s
  else { stopPlayback endTime s with stopDisabledUntil := now + 300 }

/-- **C9.** A non-suppressed stop cancels the pending animation frame,
forces the slider to 100 and the displayed time to the live edge, and stops
playing; a second click at any time within the 300 ms re-arm window is a
no-op (no double reset — the functions are total, so no exception either). -/
theorem handleStopClick_idempotent (endTime : ℚ) (s : TimeSliderState) (now t : ℕ)
    (henabled : s.stopDisabledUntil ≤ now) (h1 : now ≤ t) (h2 : t < now + 300) :
    handleStopClick endTime t (handleStopClick endTime now s) =
      handleStopClick endTime now s ∧
    (handleStopClick endTime now s).animationPending = false ∧
    (handleStopClick endTime now s).sliderValue = 100 ∧
    (handleStopClick endTime now s).displayTime = endTime ∧
    (handleStopClick endTime now s).isPlaying = false := by
  refine ⟨?_, ?_, ?_, ?_, ?_⟩
  · have hfirst : handleStopClick endTime now s =
        { stopPlayback endTime s with stopDisabledUntil := now + 300 } := by
      rw [handleStopClick, if_neg (by omega)]
    rw [hfirst]
    simp [handleStopClick, h2]
  · rw [handleStopClick, if_neg (by omega)]
    simp [stopPlayback]
  · rw [handleStopClick, if_neg (by omega)]
    simp [stopPlayback]
  · rw [handleStopClick, if_neg (by omega)]
    simp [stopPlayback]
  · rw [handleStopClick, if_neg (by omega)]
    simp [stopPlayback]

/-- Witness for C9: a concrete playing state stopped at `t = 1000` ms; a
second click at `t = 1100` ms changes nothing. -/
theorem handleStopClick_idempotent_witness :
    handleStopClick 42 1100 (handleStopClick 42 1000
      { isPlaying := true, hasStopped := false, animationPending := true,
        sliderValue := 50, displayTime := 7, stopDisabledUntil := 0 }) =
      handleStopClick 42 1000
        { isPlaying := true, hasStopped := false, animationPending := true,
          sliderValue := 50, displayTime := 7, stopDisabledUntil := 0 } ∧
    (handleStopClick 42 1000
      { isPlaying := true, hasStopped := false, animationPending := true,
        sliderValue := 50, displayTime := 7, stopDisabledUntil := 0 }).animationPending = false ∧
    (handleStopClick 42 1000
      { isPlaying := true, hasStopped := false, animationPending := true,
        sliderValue := 50, displayTime := 7, stopDisabledUntil := 0 }).sliderValue = 100 ∧
    (handleStopClick 42 1000
      { isPlaying := true, hasStopped := false, animationPending := true,
        sliderValue := 50, displayTime := 7, stopDisabledUntil := 0 }).displayTime = 42 ∧
    (handleStopClick 42 1000
      { isPlaying := true, hasStopped := false, animationPending := true,
        sliderValue := 50, displayTime := 7, stopDisabledUntil := 0 }).isPlaying = false :=
  handleStopClick_idempotent 42
    { isPlaying := true, hasStopped := false, animationPending := true,
      sliderValue := 50, displayTime := 7, stopDisabledUntil := 0 }
    1000 1100 (Nat.zero_le 1000) (by omega) (by omega)
